import Mathlib

/-!
Verification development for the CH32 USBHS device controller driver
(src/portable/wch/dcd_ch32_usbhs.c).

The driver is embedded shallowly: the global mutable state (the per-endpoint
transfer table `xfer_status`, the USBHS peripheral registers the driver
touches, the shared endpoint-0 buffer, and the stream of events emitted
upward) is collected in one structure `DcdState`, and every C function
becomes a state-passing Lean function of the same name.  `uint8_t` /
`uint16_t` values are `Nat` with explicit `% 256` / `% 65536` at the points
where C truncation happens; fallible entry points (those containing a
`TU_ASSERT`) return `Option`, with `none` standing for a failing assertion.
-/

/-- Modelled from the spec: hardware register bit layout.  The file
`ch32_usbhs_reg.h` that defines these macros is not under src/; the spec
(section 6) says the layout is bit-exact and platform specific and describes
only the fields: a 2-bit handshake-response field (ACK/NYET/NAK/STALL), a
toggle field with a DATA1 bit, an auto-toggle enable bit, identical in the
TX (`_T_`) and RX (`_R_`) register families as on the real part.  The model
fixes the concrete CH32 layout: response in bits 1..0, toggle DATA1 bit at
bit 3, auto-toggle at bit 5. -/
def USBHS_EP_T_RES_ACK : Nat := 0

def USBHS_EP_T_RES_NYET : Nat := 1

def USBHS_EP_T_RES_NAK : Nat := 2

def USBHS_EP_T_RES_STALL : Nat := 3

def USBHS_EP_T_RES_MASK : Nat := 3

def USBHS_EP_T_TOG_0 : Nat := 0

def USBHS_EP_T_TOG_1 : Nat := 8

def USBHS_EP_T_AUTOTOG : Nat := 32

def USBHS_EP_R_RES_ACK : Nat := 0

def USBHS_EP_R_RES_NYET : Nat := 1

def USBHS_EP_R_RES_NAK : Nat := 2

def USBHS_EP_R_RES_STALL : Nat := 3

def USBHS_EP_R_RES_MASK : Nat := 3

def USBHS_EP_R_TOG_0 : Nat := 0

def USBHS_EP_R_TOG_1 : Nat := 8

def USBHS_EP_R_AUTOTOG : Nat := 32

/-- Modelled from the spec: interrupt flag bits of `INT_FG` (four mutually
distinct flag bits, spec section 4.4) and the `INT_ST` sub-fields (endpoint
number in the low 4 bits, token PID in a 2-bit sub-field), from the missing
`ch32_usbhs_reg.h`. -/
def USBHS_SETUP_FLAG : Nat := 1

def USBHS_TRANSFER_FLAG : Nat := 2

def USBHS_DETECT_FLAG : Nat := 4

def USBHS_SUSPEND_FLAG : Nat := 8

def MASK_UIS_ENDP : Nat := 15

def MASK_UIS_TOKEN : Nat := 48

def USBHS_TOKEN_PID_OUT : Nat := 0

def USBHS_TOKEN_PID_IN : Nat := 32

/-- Modelled from the spec: remaining `ch32_usbhs_reg.h` constants used only
in whole-register initialisation writes (`dcd_init`); distinct bits, exact
values irrelevant to every claim. -/
def USBHS_PHY_SUSPENDM : Nat := 2

def USBHS_DMA_EN : Nat := 1

def USBHS_INT_BUSY_EN : Nat := 8

def USBHS_HIGH_SPEED : Nat := 16

def USBHS_DEV_PU_EN : Nat := 64

def USBHS_SETUP_ACT_EN : Nat := 1

def USBHS_TRANSFER_EN : Nat := 2

def USBHS_DETECT_EN : Nat := 4

def USBHS_SUSPEND_EN : Nat := 8

def USBHS_EP0_T_EN : Nat := 1

def USBHS_EP0_R_EN : Nat := 65536

def USBHS_EP0_T_TYP : Nat := 1

def USBHS_EP0_R_TYP : Nat := 65536

/-- Modelled from the spec: common TinyUSB helper values from `tusb_types.h`
(not under src/): endpoint addresses carry the direction in bit 7 and the
endpoint number in the low bits. -/
def TUSB_DIR_IN_MASK : Nat := 128

def TUSB_XFER_ISOCHRONOUS : Nat := 1

def TUSB_REQ_RCPT_DEVICE : Nat := 0

def TUSB_REQ_TYPE_STANDARD : Nat := 0

def TUSB_REQ_SET_ADDRESS : Nat := 5

/-- Max number of bi-directional endpoints including EP0 (`EP_MAX`). -/
def EP_MAX : Nat := 16

def CH32_USBHS_EP0_MAX_SIZE : Nat := 64

/-- Direction of an endpoint (`tusb_dir_t`). -/
inductive tusb_dir_t where
  | TUSB_DIR_OUT
  | TUSB_DIR_IN
deriving DecidableEq

/-- Modelled from the spec: `tu_edpt_number` from the missing TinyUSB common
headers extracts the endpoint number (address with the direction bit
cleared). -/
def tu_edpt_number (addr : Nat) : Nat := addr &&& 127

/-- Modelled from the spec: `tu_edpt_dir` from the missing TinyUSB common
headers extracts the direction bit. -/
def tu_edpt_dir (addr : Nat) : tusb_dir_t :=
  if addr &&& TUSB_DIR_IN_MASK ≠ 0 then .TUSB_DIR_IN else .TUSB_DIR_OUT

/-- Per-(endpoint, direction) transfer context (`xfer_ctl_t`).  The C
`buffer` pointer to caller-owned memory is modelled by the byte list it
points at. -/
structure xfer_ctl_t where
  buffer : List Nat
  total_len : Nat
  queued_len : Nat
  max_size : Nat
  is_last_packet : Bool
deriving DecidableEq

/-- Response kinds accepted by the response/toggle controller
(`ep_response_list_t`). -/
inductive ep_response_list_t where
  | EP_RESPONSE_ACK
  | EP_RESPONSE_NAK
deriving DecidableEq

/-- Transfer result codes (`xfer_result_t`); only SUCCESS is emitted by this
driver. -/
inductive xfer_result_t where
  | XFER_RESULT_SUCCESS
  | XFER_RESULT_FAILED
  | XFER_RESULT_STALLED
deriving DecidableEq

/-- Bus speeds (`tusb_speed_t`). -/
inductive tusb_speed_t where
  | TUSB_SPEED_FULL
  | TUSB_SPEED_LOW
  | TUSB_SPEED_HIGH
deriving DecidableEq

/-- Modelled from the spec: the events this driver emits upward to the
enclosing stack (spec section 6): transfer-complete(endpoint, length,
status, short-ok), setup-received(8-byte payload), bus-reset(speed),
suspend.  The `dcd_event_*` functions that carry them are not under src/. -/
inductive DcdEvent where
  | xfer_complete (ep_addr : Nat) (xferred_bytes : Nat) (result : xfer_result_t)
      (short_packet_ok : Bool)
  | setup_received (payload : List Nat)
  | bus_reset (speed : tusb_speed_t)
  | suspend_event
deriving DecidableEq

/-- The driver state: the `xfer_status` table, every USBHS register the
driver reads or writes, the shared endpoint-0 buffer, and the list of events
emitted so far (chronological).  The per-endpoint register banks accessed by
the `EP_TX_LEN`/`EP_TX_CTRL`/`EP_RX_CTRL`/`EP_RX_MAX_LEN` address-arithmetic
macros are modelled as functions from the endpoint index; index 0 of
`UEP_TX_LEN` is the C `UEP0_TX_LEN`, index 0 of `UEP_RX_MAX_LEN` is the C
`UEP0_MAX_LEN`, exactly as the macros alias them.  DMA address registers
hold the (buffer bytes, offset) pair the programmed pointer points at. -/
structure DcdState where
  xfer_status : Nat → tusb_dir_t → xfer_ctl_t
  UEP_TX_LEN : Nat → Nat
  UEP_TX_CTRL : Nat → Nat
  UEP_RX_CTRL : Nat → Nat
  UEP_RX_MAX_LEN : Nat → Nat
  UEP_TX_DMA : Nat → List Nat × Nat
  UEP_RX_DMA : Nat → List Nat × Nat
  UEP0_DMA : List Nat × Nat
  ep0_data_in_out_buffer : List Nat
  DEV_AD : Nat
  ENDP_CONFIG : Nat
  ENDP_TYPE : Nat
  BUF_MODE : Nat
  CONTROL : Nat
  HOST_CTRL : Nat
  INT_EN : Nat
  INT_FG : Nat
  events : List DcdEvent

/-- Pointwise update of the `xfer_status` table at one
(endpoint, direction) slot. -/
def updCtl (f : Nat → tusb_dir_t → xfer_ctl_t) (ep : Nat) (d : tusb_dir_t)
    (v : xfer_ctl_t) : Nat → tusb_dir_t → xfer_ctl_t :=
  fun e d' => if e = ep ∧ d' = d then v else f e d'

/-- Store to the context slot `xfer_status[ep][d]` (writing through the C
pointer `XFER_CTL_BASE(ep, d)`). -/
def setCtl (s : DcdState) (ep : Nat) (d : tusb_dir_t) (v : xfer_ctl_t) :
    DcdState :=
  { s with xfer_status := updCtl s.xfer_status ep d v }

/-- Store to the `EP_TX_LEN(ep)` register. -/
def setTxLen (s : DcdState) (ep v : Nat) : DcdState :=
  { s with UEP_TX_LEN := Function.update s.UEP_TX_LEN ep v }

/-- Store to the `EP_TX_CTRL(ep)` register. -/
def setTxCtrl (s : DcdState) (ep v : Nat) : DcdState :=
  { s with UEP_TX_CTRL := Function.update s.UEP_TX_CTRL ep v }

/-- Store to the `EP_RX_CTRL(ep)` register. -/
def setRxCtrl (s : DcdState) (ep v : Nat) : DcdState :=
  { s with UEP_RX_CTRL := Function.update s.UEP_RX_CTRL ep v }

/-- Store to the `EP_RX_MAX_LEN(ep)` register. -/
def setRxMaxLen (s : DcdState) (ep v : Nat) : DcdState :=
  { s with UEP_RX_MAX_LEN := Function.update s.UEP_RX_MAX_LEN ep v }

/-- Store to the `EP_TX_DMA_ADDR(ep)` register. -/
def setTxDma (s : DcdState) (ep : Nat) (v : List Nat × Nat) : DcdState :=
  { s with UEP_TX_DMA := Function.update s.UEP_TX_DMA ep v }

/-- Store to the `EP_RX_DMA_ADDR(ep)` register. -/
def setRxDma (s : DcdState) (ep : Nat) (v : List Nat × Nat) : DcdState :=
  { s with UEP_RX_DMA := Function.update s.UEP_RX_DMA ep v }

/-- Append an emitted event to the trace. -/
def emit (s : DcdState) (e : DcdEvent) : DcdState :=
  { s with events := s.events ++ [e] }

/-- C `uint16_t` subtraction `a - b` (wraps modulo 2^16); both operands are
assumed already reduced below 2^16, as every `uint16_t` in the model is. -/
def sub16 (a b : Nat) : Nat := (a + 65536 - b) % 65536

/-- Byte-array copy: `memcpy(dst + dstOff, src, n)` over list-modelled
buffers.  An out-of-bounds C copy (undefined behaviour) truncates here. -/
def memcpyList (dst : List Nat) (dstOff : Nat) (src : List Nat) (n : Nat) :
    List Nat :=
  dst.take dstOff ++ src.take n ++ dst.drop (dstOff + n)

/-- The response/toggle controller `ep_set_response_and_toggle`.  u8
register arithmetic: `reg & ~MASK` on a `uint8_t` is `reg &&& (255 ^^^
MASK)`; `|=` is `|||`, `^=` is `^^^`. -/
def ep_set_response_and_toggle (ep_addr : Nat)
    (response_type : ep_response_list_t) (s : DcdState) : DcdState :=
  let ep_num := tu_edpt_number ep_addr
  if ep_addr &&& TUSB_DIR_IN_MASK ≠ 0 then
    let response :=
      if response_type = .EP_RESPONSE_ACK then USBHS_EP_T_RES_ACK
      else USBHS_EP_T_RES_NAK
    let s1 :=
      if ep_num = 0 then
        if response_type = .EP_RESPONSE_ACK then
          if s.UEP_TX_LEN ep_num = 0 then
            setTxCtrl s ep_num (s.UEP_TX_CTRL ep_num ||| USBHS_EP_T_TOG_1)
          else
            setTxCtrl s ep_num (s.UEP_TX_CTRL ep_num ^^^ USBHS_EP_T_TOG_1)
        else s
      else s
    setTxCtrl s1 ep_num
      ((s1.UEP_TX_CTRL ep_num &&& (255 ^^^ USBHS_EP_T_RES_MASK)) ||| response)
  else
    let response :=
      if response_type = .EP_RESPONSE_ACK then USBHS_EP_R_RES_ACK
      else USBHS_EP_R_RES_NAK
    let s1 :=
      if ep_num = 0 then
        if response_type = .EP_RESPONSE_ACK then
          if (s.xfer_status ep_num .TUSB_DIR_OUT).queued_len = 0 then
            setRxCtrl s ep_num (s.UEP_RX_CTRL ep_num ||| USBHS_EP_R_TOG_1)
          else s
        else
          setRxCtrl s ep_num (s.UEP_RX_CTRL ep_num ^^^ USBHS_EP_R_TOG_1)
      else s
    setRxCtrl s1 ep_num
      ((s1.UEP_RX_CTRL ep_num &&& (255 ^^^ USBHS_EP_R_RES_MASK)) ||| response)

/-- The packetizer `xfer_data_packet`.  The C function mutates the context
`&xfer_status[ep_num][dir]` through a pointer; here it updates that slot of
the state.  `uint16_t` arithmetic is explicit: `total_len - queued_len` is
`sub16` and the `queued_len +=` store truncates mod 2^16.  The final C call
passes `USBHS_EP_R_RES_ACK` (numeric value 0) where an `ep_response_list_t`
is expected; 0 is `EP_RESPONSE_ACK`. -/
def xfer_data_packet (ep_addr : Nat) (s : DcdState) : DcdState :=
  let ep_num := tu_edpt_number ep_addr
  let dir := tu_edpt_dir ep_addr
  let xfer := s.xfer_status ep_num dir
  let s2 :=
    if dir = .TUSB_DIR_IN then
      let remaining := sub16 xfer.total_len xfer.queued_len
      let next_tx_size := min remaining xfer.max_size
      let sa :=
        if ep_num = 0 then
          { s with ep0_data_in_out_buffer :=
              memcpyList s.ep0_data_in_out_buffer 0 (xfer.buffer.drop xfer.queued_len) next_tx_size }
        else
          setTxDma s ep_num (xfer.buffer, xfer.queued_len)
      let sb := setTxLen sa ep_num next_tx_size
      let queued' := (xfer.queued_len + next_tx_size) % 65536
      let xfer' := { xfer with
        queued_len := queued'
        is_last_packet := if queued' = xfer.total_len then true
                          else xfer.is_last_packet }
      setCtl sb ep_num dir xfer'
    else
      let left_to_receive := sub16 xfer.total_len xfer.queued_len
      let max_possible_rx_size := min xfer.max_size left_to_receive
      let xfer' := { xfer with
        is_last_packet := if max_possible_rx_size = left_to_receive then true
                          else xfer.is_last_packet }
      let sa := setCtl s ep_num dir xfer'
      if ep_num > 0 then
        setRxMaxLen (setRxDma sa ep_num (xfer.buffer, xfer.queued_len)) ep_num
          max_possible_rx_size
      else sa
  ep_set_response_and_toggle ep_addr .EP_RESPONSE_ACK s2

/-- A zeroed transfer context, as produced by the `memset` in `dcd_init`
(NULL buffer pointer becomes the empty list). -/
def zero_xfer_ctl : xfer_ctl_t :=
  { buffer := [], total_len := 0, queued_len := 0, max_size := 0,
    is_last_packet := false }

/-- Driver initialisation `dcd_init`.  The `for` loop writing each endpoint
0 ≤ ep < EP_MAX becomes a pointwise conditional update.  The build is
`TUD_OPT_HIGH_SPEED` (the full-speed branch is an `#error`). -/
def dcd_init (rhport : Nat) (s : DcdState) : DcdState :=
  let _ := rhport
  let s := { s with xfer_status := fun _ _ => zero_xfer_ctl }
  let s := { s with HOST_CTRL := 0 }
  let s := { s with HOST_CTRL := USBHS_PHY_SUSPENDM }
  let s := { s with CONTROL := 0 }
  let s := { s with CONTROL := USBHS_DMA_EN ||| USBHS_INT_BUSY_EN ||| USBHS_HIGH_SPEED }
  let s := { s with INT_EN := 0 }
  let s := { s with INT_EN := USBHS_SETUP_ACT_EN ||| USBHS_TRANSFER_EN ||| USBHS_DETECT_EN ||| USBHS_SUSPEND_EN }
  let s := { s with ENDP_CONFIG := USBHS_EP0_T_EN ||| USBHS_EP0_R_EN }
  let s := { s with ENDP_TYPE := 0 }
  let s := { s with BUF_MODE := 0 }
  let s := { s with
    UEP_TX_LEN := fun ep => if ep < EP_MAX then 0 else s.UEP_TX_LEN ep
    UEP_TX_CTRL := fun ep => if ep < EP_MAX then USBHS_EP_T_AUTOTOG ||| USBHS_EP_T_RES_NAK else s.UEP_TX_CTRL ep
    UEP_RX_CTRL := fun ep => if ep < EP_MAX then USBHS_EP_R_AUTOTOG ||| USBHS_EP_R_RES_NAK else s.UEP_RX_CTRL ep
    UEP_RX_MAX_LEN := fun ep => if ep < EP_MAX then 0 else s.UEP_RX_MAX_LEN ep }
  let s := { s with UEP0_DMA := (s.ep0_data_in_out_buffer, 0) }
  let s := setRxMaxLen s 0 CH32_USBHS_EP0_MAX_SIZE
  let s := setCtl s 0 .TUSB_DIR_OUT { s.xfer_status 0 .TUSB_DIR_OUT with max_size := CH32_USBHS_EP0_MAX_SIZE }
  let s := setCtl s 0 .TUSB_DIR_IN { s.xfer_status 0 .TUSB_DIR_IN with max_size := CH32_USBHS_EP0_MAX_SIZE }
  let s := { s with DEV_AD := 0 }
  { s with CONTROL := s.CONTROL ||| USBHS_DEV_PU_EN }

/-- Interrupt enable `dcd_int_enable`: only touches the NVIC, which is
outside the modelled state. -/
def dcd_int_enable (rhport : Nat) (s : DcdState) : DcdState :=
  let _ := rhport
  s

/-- Interrupt disable `dcd_int_disable`: only touches the NVIC, which is
outside the modelled state. -/
def dcd_int_disable (rhport : Nat) (s : DcdState) : DcdState :=
  let _ := rhport
  s

/-- Close-all `dcd_edpt_close_all`: the `for` loop over 1 ≤ ep < EP_MAX
becomes a pointwise conditional update. -/
def dcd_edpt_close_all (rhport : Nat) (s : DcdState) : DcdState :=
  let _ := rhport
  let s := { s with
    UEP_TX_LEN := fun ep => if 1 ≤ ep ∧ ep < EP_MAX then 0 else s.UEP_TX_LEN ep
    UEP_TX_CTRL := fun ep => if 1 ≤ ep ∧ ep < EP_MAX then USBHS_EP_T_AUTOTOG ||| USBHS_EP_T_RES_NAK else s.UEP_TX_CTRL ep
    UEP_RX_CTRL := fun ep => if 1 ≤ ep ∧ ep < EP_MAX then USBHS_EP_R_AUTOTOG ||| USBHS_EP_R_RES_NAK else s.UEP_RX_CTRL ep
    UEP_RX_MAX_LEN := fun ep => if 1 ≤ ep ∧ ep < EP_MAX then 0 else s.UEP_RX_MAX_LEN ep }
  { s with ENDP_CONFIG := USBHS_EP0_T_EN ||| USBHS_EP0_R_EN }

/-- Remote wakeup `dcd_remote_wakeup`: empty body. -/
def dcd_remote_wakeup (rhport : Nat) (s : DcdState) : DcdState :=
  let _ := rhport
  s

/-- Endpoint descriptor (`tusb_desc_endpoint_t`), reduced to the three
fields this driver reads. -/
structure tusb_desc_endpoint_t where
  bEndpointAddress : Nat
  bmAttributes_xfer : Nat
  wMaxPacketSize : Nat

/-- Modelled from the spec: `tu_edpt_packet_size` from the missing TinyUSB
common headers extracts the maximum packet size (low 11 bits of
`wMaxPacketSize`). -/
def tu_edpt_packet_size (desc : tusb_desc_endpoint_t) : Nat :=
  desc.wMaxPacketSize &&& 2047

/-- Endpoint open `dcd_edpt_open`.  `TU_ASSERT(ep_num < EP_MAX)` is the
fatal assertion of spec section 7; a failing assertion is modelled as
`none` (see the doc comment on `dcd_edpt_close` for the uniform Option
convention). -/
def dcd_edpt_open (rhport : Nat) (desc_edpt : tusb_desc_endpoint_t)
    (s : DcdState) : Option (DcdState × Bool) :=
  let _ := rhport
  let ep_num := tu_edpt_number desc_edpt.bEndpointAddress
  let dir := tu_edpt_dir desc_edpt.bEndpointAddress
  if ep_num < EP_MAX then
    if ep_num = 0 then some (s, true)
    else
    let xfer := s.xfer_status ep_num dir
    let xfer := { xfer with max_size := tu_edpt_packet_size desc_edpt }
    let s := setCtl s ep_num dir xfer
    let is_iso := desc_edpt.bmAttributes_xfer = TUSB_XFER_ISOCHRONOUS
    if dir = .TUSB_DIR_OUT then
      let s := { s with ENDP_CONFIG := s.ENDP_CONFIG ||| (USBHS_EP0_R_EN <<< ep_num) }
      let s := setRxCtrl s ep_num (USBHS_EP_R_AUTOTOG ||| USBHS_EP_R_RES_NAK)
      let s := if is_iso then { s with ENDP_TYPE := s.ENDP_TYPE ||| (USBHS_EP0_R_TYP <<< ep_num) } else s
      let s := setRxMaxLen s ep_num xfer.max_size
      some (s, true)
    else
      let s := { s with ENDP_CONFIG := s.ENDP_CONFIG ||| (USBHS_EP0_T_EN <<< ep_num) }
      let s := if is_iso then { s with ENDP_TYPE := s.ENDP_TYPE ||| (USBHS_EP0_T_TYP <<< ep_num) } else s
      let s := setTxLen s ep_num 0
      let s := setTxCtrl s ep_num (USBHS_EP_T_AUTOTOG ||| USBHS_EP_T_RES_NAK ||| USBHS_EP_T_TOG_0)
      some (s, true)
  else none

/-- Endpoint close `dcd_edpt_close`.  Like every endpoint lifecycle entry
point it is given the uniform `Option` result type in which `none` means a
fatal `TU_ASSERT` fired; this function contains no `TU_ASSERT` in the
source, and accordingly no branch of its body produces `none`.  `& ~x` on
the 32-bit `ENDP_TYPE`/`ENDP_CONFIG` registers is `&&& (2^32 - 1 ^^^ x)`. -/
def dcd_edpt_close (rhport ep_addr : Nat) (s : DcdState) : Option DcdState :=
  let _ := rhport
  let ep_num := tu_edpt_number ep_addr
  let dir := tu_edpt_dir ep_addr
  if dir = .TUSB_DIR_OUT then
    let s := setRxCtrl s ep_num (USBHS_EP_R_AUTOTOG ||| USBHS_EP_R_RES_NAK)
    let s := setRxMaxLen s ep_num 0
    let s := { s with ENDP_TYPE := s.ENDP_TYPE &&& (4294967295 ^^^ (USBHS_EP0_R_TYP <<< ep_num)) }
    some { s with ENDP_CONFIG := s.ENDP_CONFIG &&& (4294967295 ^^^ (USBHS_EP0_R_EN <<< ep_num)) }
  else
    let s := setTxCtrl s ep_num (USBHS_EP_T_AUTOTOG ||| USBHS_EP_T_RES_NAK ||| USBHS_EP_T_TOG_0)
    let s := setTxLen s ep_num 0
    let s := { s with ENDP_TYPE := s.ENDP_TYPE &&& (4294967295 ^^^ (USBHS_EP0_T_TYP <<< ep_num)) }
    some { s with ENDP_CONFIG := s.ENDP_CONFIG &&& (4294967295 ^^^ (USBHS_EP0_T_EN <<< ep_num)) }

/-- Endpoint stall `dcd_edpt_stall` (uniform Option convention, no
`TU_ASSERT` in the source body).  Note: the source writes `EP_TX_LEN(0) = 0`
with the literal index 0, not `ep_num`; the model reproduces this. -/
def dcd_edpt_stall (rhport ep_addr : Nat) (s : DcdState) : Option DcdState :=
  let _ := rhport
  let ep_num := tu_edpt_number ep_addr
  let dir := tu_edpt_dir ep_addr
  if dir = .TUSB_DIR_OUT then
    some (setRxCtrl s ep_num USBHS_EP_R_RES_STALL)
  else
    let s := setTxLen s 0 0
    some (setTxCtrl s ep_num USBHS_EP_T_RES_STALL)

/-- Endpoint clear-stall `dcd_edpt_clear_stall` (uniform Option convention,
no `TU_ASSERT` in the source body).  Note: the IN branch of the source
writes the RX-family constant `USBHS_EP_R_RES_NAK` into the TX control
register; the model reproduces this (numerically the T and R NAK values
coincide). -/
def dcd_edpt_clear_stall (rhport ep_addr : Nat) (s : DcdState) :
    Option DcdState :=
  let _ := rhport
  let ep_num := tu_edpt_number ep_addr
  let dir := tu_edpt_dir ep_addr
  if dir = .TUSB_DIR_OUT then
    some (setRxCtrl s ep_num (USBHS_EP_R_AUTOTOG ||| USBHS_EP_R_RES_NAK))
  else
    some (setTxCtrl s ep_num (USBHS_EP_T_AUTOTOG ||| USBHS_EP_R_RES_NAK))

/-- The context (re)initialisation performed by `dcd_edpt_xfer` before it
arms the first packet: the four field assignments into
`xfer_status[ep_num][dir]`.  The `uint16_t` parameter `total_bytes`
truncates mod 2^16 on store. -/
def xfer_arm (ep_addr : Nat) (buffer : List Nat) (total_bytes : Nat)
    (s : DcdState) : DcdState :=
  let ep_num := tu_edpt_number ep_addr
  let dir := tu_edpt_dir ep_addr
  let xfer := s.xfer_status ep_num dir
  let xfer := { xfer with
    buffer := buffer
    total_len := total_bytes % 65536
    queued_len := 0
    is_last_packet := false }
  setCtl s ep_num dir xfer

/-- Transfer entry point `dcd_edpt_xfer` (uniform Option convention, no
`TU_ASSERT` in the source body): reset the context, arm the first packet,
return true. -/
def dcd_edpt_xfer (rhport ep_addr : Nat) (buffer : List Nat)
    (total_bytes : Nat) (s : DcdState) : Option (DcdState × Bool) :=
  let _ := rhport
  some (xfer_data_packet ep_addr (xfer_arm ep_addr buffer total_bytes s), true)

/-- Set-address entry point `dcd_set_address`: responds with a zero-length
status packet by delegating to `dcd_edpt_xfer(rhport, 0x80, NULL, 0)`; it
does not touch the device address register. -/
def dcd_set_address (rhport dev_addr : Nat) (s : DcdState) :
    Option (DcdState × Bool) :=
  let _ := dev_addr
  dcd_edpt_xfer rhport 128 [] 0 s

/-- Control request (`tusb_control_request_t`), reduced to the fields this
driver reads (`bmRequestType_bit.recipient`, `bmRequestType_bit.type`,
`bRequest`, `wValue`). -/
structure tusb_control_request_t where
  recipient : Nat
  requestType : Nat
  bRequest : Nat
  wValue : Nat

/-- Status-complete hook `dcd_edpt0_status_complete`: latches the device
address for a standard SET_ADDRESS device request (`(uint8_t)wValue`
truncates mod 256), then parks both endpoint-0 directions at NAK/DATA0. -/
def dcd_edpt0_status_complete (rhport : Nat)
    (request : tusb_control_request_t) (s : DcdState) : DcdState :=
  let _ := rhport
  let s :=
    if request.recipient = TUSB_REQ_RCPT_DEVICE ∧
       request.requestType = TUSB_REQ_TYPE_STANDARD ∧
       request.bRequest = TUSB_REQ_SET_ADDRESS then
      { s with DEV_AD := request.wValue % 256 }
    else s
  let s := setTxCtrl s 0 (USBHS_EP_T_RES_NAK ||| USBHS_EP_T_TOG_0)
  setRxCtrl s 0 (USBHS_EP_R_RES_NAK ||| USBHS_EP_R_TOG_0)

/-- Interrupt handler `dcd_int_handler`.  The hardware values the C code
reads from `USBHSD->INT_FG`, `USBHSD->INT_ST` and `USBHSD->RX_LEN` are
passed as the parameters `int_flag`, `int_status` and `RX_LEN`; the
write-one-to-clear acknowledgement writes to `INT_FG` are recorded in the
state.  The setup-received payload is the 8-byte setup packet sitting in
the shared endpoint-0 buffer. -/
def dcd_int_handler (rhport int_flag int_status RX_LEN : Nat)
    (s : DcdState) : DcdState :=
  let _ := rhport
  if int_flag &&& USBHS_TRANSFER_FLAG ≠ 0 then
    let ep_num := int_status &&& MASK_UIS_ENDP
    let rx_token := int_status &&& MASK_UIS_TOKEN
    let ep_addr := if rx_token = USBHS_TOKEN_PID_IN then TUSB_DIR_IN_MASK ||| ep_num else ep_num
    let dir := tu_edpt_dir ep_addr
    let s2 :=
      if rx_token = USBHS_TOKEN_PID_OUT then
        let rx_len := RX_LEN
        let xfer := s.xfer_status ep_num dir
        let sa :=
          if ep_num = 0 then
            setCtl s ep_num dir { xfer with buffer := memcpyList xfer.buffer xfer.queued_len s.ep0_data_in_out_buffer rx_len }
          else s
        let xfer2 := sa.xfer_status ep_num dir
        let xfer2 := { xfer2 with queued_len := (xfer2.queued_len + rx_len) % 65536 }
        let xfer2 :=
          if rx_len < xfer2.max_size then { xfer2 with is_last_packet := true }
          else xfer2
        setCtl sa ep_num dir xfer2
      else s
    let xfer := s2.xfer_status ep_num dir
    let s3 :=
      if xfer.is_last_packet then
        let sb := ep_set_response_and_toggle ep_addr .EP_RESPONSE_NAK s2
        emit sb (.xfer_complete ep_addr xfer.queued_len .XFER_RESULT_SUCCESS true)
      else
        xfer_data_packet ep_addr s2
    { s3 with INT_FG := USBHS_TRANSFER_FLAG }
  else if int_flag &&& USBHS_SETUP_FLAG ≠ 0 then
    let s := ep_set_response_and_toggle 128 .EP_RESPONSE_NAK s
    let s := ep_set_response_and_toggle 0 .EP_RESPONSE_NAK s
    let s := emit s (.setup_received (s.ep0_data_in_out_buffer.take 8))
    { s with INT_FG := USBHS_SETUP_FLAG }
  else if int_flag &&& USBHS_DETECT_FLAG ≠ 0 then
    let s := emit s (.bus_reset .TUSB_SPEED_HIGH)
    let s := { s with DEV_AD := 0 }
    let s := setRxCtrl s 0 (USBHS_EP_R_RES_ACK ||| USBHS_EP_R_TOG_0)
    let s := setTxCtrl s 0 (USBHS_EP_T_RES_NAK ||| USBHS_EP_T_TOG_0)
    { s with INT_FG := USBHS_DETECT_FLAG }
  else if int_flag &&& USBHS_SUSPEND_FLAG ≠ 0 then
    let s := emit s .suspend_event
    { s with INT_FG := USBHS_SUSPEND_FLAG }
  else s

/-- A concrete all-zero driver state, used for concrete evaluations: every
register zero, a zeroed 64-byte endpoint-0 buffer, empty event trace. -/
def zeroState : DcdState :=
  { xfer_status := fun _ _ => zero_xfer_ctl
    UEP_TX_LEN := fun _ => 0
    UEP_TX_CTRL := fun _ => 0
    UEP_RX_CTRL := fun _ => 0
    UEP_RX_MAX_LEN := fun _ => 0
    UEP_TX_DMA := fun _ => ([], 0)
    UEP_RX_DMA := fun _ => ([], 0)
    UEP0_DMA := ([], 0)
    ep0_data_in_out_buffer := List.replicate 64 0
    DEV_AD := 0
    ENDP_CONFIG := 0
    ENDP_TYPE := 0
    BUF_MODE := 0
    CONTROL := 0
    HOST_CTRL := 0
    INT_EN := 0
    INT_FG := 0
    events := [] }

/-- The sequence of IN chunk sizes obtained by repeatedly invoking the
packetizer `xfer_data_packet` on endpoint `ep_addr`, reading each armed
chunk from the just-programmed `EP_TX_LEN` register, until the context
reports `is_last_packet` (fuel-bounded recursion); also returns the final
state. -/
def collectIN (ep_addr : Nat) : Nat → DcdState → List Nat × DcdState
  | 0, s => ([], s)
  | fuel + 1, s =>
    let s' := xfer_data_packet ep_addr s
    let chunk := s'.UEP_TX_LEN (tu_edpt_number ep_addr)
    if (s'.xfer_status (tu_edpt_number ep_addr) .TUSB_DIR_IN).is_last_packet then
      ([chunk], s')
    else
      let r := collectIN ep_addr fuel s'
      (chunk :: r.1, r.2)

/-! Helper definitions and lemmas shared by the claim theorems. -/

/-- The 2-bit handshake-response field of a TX/RX control register. -/
def res_field (c : Nat) : Nat := c % 4

/-- The 2-bit toggle field of a TX/RX control register (0 = DATA0,
1 = DATA1). -/
def tog_field (c : Nat) : Nat := c / 8 % 4

set_option maxRecDepth 8192

lemma u8_nak_write_res (c : Nat) (h : c < 256) :
    res_field ((c &&& 252) ||| 2) = 2 := by
  revert h
  revert c
  decide

lemma u8_xor_nak_write_res (c : Nat) (h : c < 256) :
    res_field (((c ^^^ 8) &&& 252) ||| 2) = 2 := by
  revert h
  revert c
  decide

lemma u8_or_ack_togbit (c : Nat) (h : c < 256) :
    (((c ||| 8) &&& 252) ||| 0).testBit 3 = true := by
  revert h
  revert c
  decide

lemma u8_xor_ack_togbit (c : Nat) (h : c < 256) :
    (((c ^^^ 8) &&& 252) ||| 0).testBit 3 = !(c.testBit 3) := by
  revert h
  revert c
  decide

lemma u8_or_ack_res (c : Nat) (h : c < 256) :
    res_field (((c ||| 8) &&& 252) ||| 0) = 0 := by
  revert h
  revert c
  decide

lemma u8_xor_ack_res (c : Nat) (h : c < 256) :
    res_field (((c ^^^ 8) &&& 252) ||| 0) = 0 := by
  revert h
  revert c
  decide

/-- C7: after the bus-reset (detect) branch of `dcd_int_handler` — reached
when the transfer and setup flags are clear and the detect flag is set —
the device address register is 0, endpoint 0 RX is armed ACK with toggle
field DATA0, endpoint 0 TX is NAK with toggle field DATA0, and a bus-reset
event with the build-configured speed (high speed) has been emitted in this
branch. -/
theorem c7_bus_reset_branch (rh int_flag int_status RX_LEN : Nat)
    (s : DcdState)
    (h1 : int_flag &&& USBHS_TRANSFER_FLAG = 0)
    (h2 : int_flag &&& USBHS_SETUP_FLAG = 0)
    (h3 : int_flag &&& USBHS_DETECT_FLAG ≠ 0) :
    (dcd_int_handler rh int_flag int_status RX_LEN s).DEV_AD = 0 ∧
    res_field ((dcd_int_handler rh int_flag int_status RX_LEN s).UEP_RX_CTRL 0)
      = USBHS_EP_R_RES_ACK ∧
    tog_field ((dcd_int_handler rh int_flag int_status RX_LEN s).UEP_RX_CTRL 0)
      = USBHS_EP_R_TOG_0 ∧
    res_field ((dcd_int_handler rh int_flag int_status RX_LEN s).UEP_TX_CTRL 0)
      = USBHS_EP_T_RES_NAK ∧
    tog_field ((dcd_int_handler rh int_flag int_status RX_LEN s).UEP_TX_CTRL 0)
      = USBHS_EP_T_TOG_0 ∧
    (dcd_int_handler rh int_flag int_status RX_LEN s).events
      = s.events ++ [DcdEvent.bus_reset .TUSB_SPEED_HIGH] := by
  unfold dcd_int_handler
  rw [if_neg (by simp [h1]), if_neg (by simp [h2]), if_pos h3]
  simp [emit, setRxCtrl, setTxCtrl, res_field, tog_field,
    USBHS_EP_R_RES_ACK, USBHS_EP_R_TOG_0, USBHS_EP_T_RES_NAK, USBHS_EP_T_TOG_0]

/-- Witness for C7 at a concrete input: flags = detect only, zero state. -/
theorem c7_bus_reset_branch_witness :
    (dcd_int_handler 0 4 0 0 zeroState).DEV_AD = 0 ∧
    res_field ((dcd_int_handler 0 4 0 0 zeroState).UEP_RX_CTRL 0)
      = USBHS_EP_R_RES_ACK ∧
    tog_field ((dcd_int_handler 0 4 0 0 zeroState).UEP_RX_CTRL 0)
      = USBHS_EP_R_TOG_0 ∧
    res_field ((dcd_int_handler 0 4 0 0 zeroState).UEP_TX_CTRL 0)
      = USBHS_EP_T_RES_NAK ∧
    tog_field ((dcd_int_handler 0 4 0 0 zeroState).UEP_TX_CTRL 0)
      = USBHS_EP_T_TOG_0 ∧
    (dcd_int_handler 0 4 0 0 zeroState).events
      = zeroState.events ++ [DcdEvent.bus_reset .TUSB_SPEED_HIGH] :=
  c7_bus_reset_branch 0 4 0 0 zeroState (by decide) (by decide) (by decide)

/-- C9: applying `ep_set_response_and_toggle` to endpoint 0 IN (address
0x80) with the ACK response: if the just-armed TX chunk length register
`EP_TX_LEN(0)` is zero the toggle bit (DATA1 bit) of `EP_TX_CTRL(0)` is
forced to 1, otherwise it is flipped; and in every case the response bits
written last (after the toggle adjustment) leave the adjusted toggle bit
intact while the response field becomes ACK. -/
lemma ep_srt_ack_tx0_val (s : DcdState) :
    (ep_set_response_and_toggle 128 .EP_RESPONSE_ACK s).UEP_TX_CTRL 0 =
      ((if s.UEP_TX_LEN 0 = 0 then s.UEP_TX_CTRL 0 ||| 8
        else s.UEP_TX_CTRL 0 ^^^ 8) &&& 252) ||| 0 := by
  have hn : (128 : Nat) &&& 127 = 0 := by decide
  by_cases h : s.UEP_TX_LEN 0 = 0 <;>
    simp [ep_set_response_and_toggle, setTxCtrl, hn, h, tu_edpt_number,
      USBHS_EP_T_TOG_1, USBHS_EP_T_RES_MASK, USBHS_EP_T_RES_ACK,
      TUSB_DIR_IN_MASK]

theorem c9_ep0_in_ack_toggle (s : DcdState) (hc : s.UEP_TX_CTRL 0 < 256) :
    (s.UEP_TX_LEN 0 = 0 →
      ((ep_set_response_and_toggle 128 .EP_RESPONSE_ACK s).UEP_TX_CTRL 0).testBit 3
        = true) ∧
    (s.UEP_TX_LEN 0 ≠ 0 →
      ((ep_set_response_and_toggle 128 .EP_RESPONSE_ACK s).UEP_TX_CTRL 0).testBit 3
        = !(s.UEP_TX_CTRL 0).testBit 3) ∧
    res_field ((ep_set_response_and_toggle 128 .EP_RESPONSE_ACK s).UEP_TX_CTRL 0)
      = USBHS_EP_T_RES_ACK := by
  rw [USBHS_EP_T_RES_ACK, ep_srt_ack_tx0_val]
  by_cases h : s.UEP_TX_LEN 0 = 0
  · rw [if_pos h]
    exact ⟨fun _ => u8_or_ack_togbit _ hc, fun hne => absurd h hne,
      u8_or_ack_res _ hc⟩
  · rw [if_neg h]
    exact ⟨fun heq => absurd heq h, fun _ => u8_xor_ack_togbit _ hc,
      u8_xor_ack_res _ hc⟩

/-- Witness for C9 at a concrete state (register 0, length 0). -/
theorem c9_ep0_in_ack_toggle_witness :
    (zeroState.UEP_TX_LEN 0 = 0 →
      ((ep_set_response_and_toggle 128 .EP_RESPONSE_ACK zeroState).UEP_TX_CTRL 0).testBit 3
        = true) ∧
    (zeroState.UEP_TX_LEN 0 ≠ 0 →
      ((ep_set_response_and_toggle 128 .EP_RESPONSE_ACK zeroState).UEP_TX_CTRL 0).testBit 3
        = !(zeroState.UEP_TX_CTRL 0).testBit 3) ∧
    res_field ((ep_set_response_and_toggle 128 .EP_RESPONSE_ACK zeroState).UEP_TX_CTRL 0)
      = USBHS_EP_T_RES_ACK :=
  c9_ep0_in_ack_toggle zeroState (by decide)

lemma ep_srt_nak_in0_val (s : DcdState) :
    ep_set_response_and_toggle 128 .EP_RESPONSE_NAK s =
      setTxCtrl s 0 ((s.UEP_TX_CTRL 0 &&& 252) ||| 2) := by
  have hn : (128 : Nat) &&& 127 = 0 := by decide
  simp [ep_set_response_and_toggle, setTxCtrl, hn, tu_edpt_number,
    USBHS_EP_T_RES_MASK, USBHS_EP_T_RES_NAK, TUSB_DIR_IN_MASK]

lemma ep_srt_nak_out0_val (s : DcdState) :
    ep_set_response_and_toggle 0 .EP_RESPONSE_NAK s =
      setRxCtrl s 0 (((s.UEP_RX_CTRL 0 ^^^ 8) &&& 252) ||| 2) := by
  simp [ep_set_response_and_toggle, setRxCtrl, tu_edpt_number,
    USBHS_EP_R_RES_MASK, USBHS_EP_R_RES_NAK, USBHS_EP_R_TOG_1,
    TUSB_DIR_IN_MASK, Function.update_idem]

/-- C8: in the setup-received interrupt branch — reached when the transfer
flag is clear and the setup flag is set — regardless of the prior state of
the endpoint 0 transfer contexts and control registers, both directions of
endpoint 0 end with the NAK response while the setup-received event
(carrying the 8-byte payload of the shared hardware buffer) is the one
event emitted; the NAK writes happen before the event is appended and
nothing later in the branch touches the endpoint-0 control registers. -/
theorem c8_setup_branch (rh int_flag int_status RX_LEN : Nat) (s : DcdState)
    (h1 : int_flag &&& USBHS_TRANSFER_FLAG = 0)
    (h2 : int_flag &&& USBHS_SETUP_FLAG ≠ 0)
    (hct : s.UEP_TX_CTRL 0 < 256) (hcr : s.UEP_RX_CTRL 0 < 256) :
    res_field ((dcd_int_handler rh int_flag int_status RX_LEN s).UEP_TX_CTRL 0)
      = USBHS_EP_T_RES_NAK ∧
    res_field ((dcd_int_handler rh int_flag int_status RX_LEN s).UEP_RX_CTRL 0)
      = USBHS_EP_R_RES_NAK ∧
    (dcd_int_handler rh int_flag int_status RX_LEN s).events
      = s.events ++ [DcdEvent.setup_received (s.ep0_data_in_out_buffer.take 8)] := by
  unfold dcd_int_handler
  rw [if_neg (by simp [h1]), if_pos h2]
  simp only [ep_srt_nak_in0_val, ep_srt_nak_out0_val]
  refine ⟨?_, ?_, ?_⟩ <;>
    simp [setTxCtrl, setRxCtrl, emit, u8_nak_write_res _ hct,
      u8_xor_nak_write_res _ hcr, USBHS_EP_T_RES_NAK, USBHS_EP_R_RES_NAK]

/-- Witness for C8 at a concrete input: flags = setup only, zero state. -/
theorem c8_setup_branch_witness :
    res_field ((dcd_int_handler 0 1 0 0 zeroState).UEP_TX_CTRL 0)
      = USBHS_EP_T_RES_NAK ∧
    res_field ((dcd_int_handler 0 1 0 0 zeroState).UEP_RX_CTRL 0)
      = USBHS_EP_R_RES_NAK ∧
    (dcd_int_handler 0 1 0 0 zeroState).events
      = zeroState.events ++
        [DcdEvent.setup_received (zeroState.ep0_data_in_out_buffer.take 8)] :=
  c8_setup_branch 0 1 0 0 zeroState (by decide) (by decide) (by decide) (by decide)

/-- C4 counterexample: at the concrete out-of-range endpoint number 16
(= EP_MAX), the lifecycle entry points `dcd_edpt_close`, `dcd_edpt_stall`,
`dcd_edpt_clear_stall` and `dcd_edpt_xfer` all complete normally (`isSome`)
instead of triggering the fatal assertion the claim requires of every
lifecycle entry point. -/
theorem c4_counterexample_no_assert_at_16 :
    (dcd_edpt_close 0 16 zeroState).isSome = true ∧
    (dcd_edpt_stall 0 16 zeroState).isSome = true ∧
    (dcd_edpt_clear_stall 0 16 zeroState).isSome = true ∧
    (dcd_edpt_xfer 0 16 [] 0 zeroState).isSome = true := by
  refine ⟨rfl, rfl, rfl, rfl⟩

/-- C4 amended: only `dcd_edpt_open` range-checks the endpoint number (its
`TU_ASSERT(ep_num < EP_MAX)` fails, modelled as `none`, whenever the
endpoint number is ≥ EP_MAX = 16); `dcd_edpt_close`, `dcd_edpt_stall`,
`dcd_edpt_clear_stall` and `dcd_edpt_xfer` perform no range check and
complete normally on the same out-of-range endpoint. -/
theorem c4_only_open_asserts (rh addr n : Nat) (desc : tusb_desc_endpoint_t)
    (buf : List Nat) (s : DcdState)
    (hdesc : desc.bEndpointAddress = addr)
    (h16 : EP_MAX ≤ tu_edpt_number addr) :
    dcd_edpt_open rh desc s = none ∧
    (dcd_edpt_close rh addr s).isSome = true ∧
    (dcd_edpt_stall rh addr s).isSome = true ∧
    (dcd_edpt_clear_stall rh addr s).isSome = true ∧
    (dcd_edpt_xfer rh addr buf n s).isSome = true := by
  refine ⟨?_, ?_, ?_, ?_, ?_⟩
  · simp only [dcd_edpt_open, hdesc]
    rw [if_neg (by omega)]
  · cases hdir : tu_edpt_dir addr <;> simp [dcd_edpt_close, hdir]
  · cases hdir : tu_edpt_dir addr <;> simp [dcd_edpt_stall, hdir]
  · cases hdir : tu_edpt_dir addr <;> simp [dcd_edpt_clear_stall, hdir]
  · simp [dcd_edpt_xfer]

/-- Witness for the amended C4 at endpoint number 16. -/
theorem c4_only_open_asserts_witness :
    dcd_edpt_open 0 ⟨16, 0, 64⟩ zeroState = none ∧
    (dcd_edpt_close 0 16 zeroState).isSome = true ∧
    (dcd_edpt_stall 0 16 zeroState).isSome = true ∧
    (dcd_edpt_clear_stall 0 16 zeroState).isSome = true ∧
    (dcd_edpt_xfer 0 16 [] 0 zeroState).isSome = true :=
  c4_only_open_asserts 0 16 0 ⟨16, 0, 64⟩ [] zeroState rfl (by decide)

/-- A concrete state in which endpoint 1 has a pending TX length of 5,
used to exhibit the `EP_TX_LEN(0)` indexing slip in `dcd_edpt_stall`. -/
def c5_state : DcdState := setTxLen zeroState 1 5

/-- C5 (code bug): stalling endpoint 1 IN (address 0x81) sets endpoint 1's
TX response to STALL but zeroes endpoint 0's pending TX length register,
leaving endpoint 1's own pending TX length (5) untouched — the source
writes the literal index 0 (`EP_TX_LEN(0) = 0`) instead of `ep_num`. -/
theorem c5_stall_zeroes_wrong_tx_len :
    ((dcd_edpt_stall 0 129 c5_state).elim 0 fun t => t.UEP_TX_LEN 1) = 5 ∧
    ((dcd_edpt_stall 0 129 c5_state).elim 1 fun t => t.UEP_TX_LEN 0) = 0 ∧
    ((dcd_edpt_stall 0 129 c5_state).elim 0 fun t => res_field (t.UEP_TX_CTRL 1))
      = USBHS_EP_T_RES_STALL := by
  refine ⟨by decide, by decide, by decide⟩

/-- C6: `dcd_edpt_clear_stall` restores the hardware response for the given
endpoint/direction to NAK with the auto-toggle bit (bit 5) set: on OUT via
the RX control register, on IN via the TX control register (the source's IN
branch writes the RX-family NAK constant, whose value coincides with the TX
one; the assigned value carries no explicit DATA0-toggle-forcing bit). -/
theorem c6_clear_stall_nak_autotog (rh ep_addr : Nat) (s s' : DcdState)
    (h : dcd_edpt_clear_stall rh ep_addr s = some s') :
    (tu_edpt_dir ep_addr = .TUSB_DIR_OUT →
      res_field (s'.UEP_RX_CTRL (tu_edpt_number ep_addr)) = USBHS_EP_R_RES_NAK ∧
      (s'.UEP_RX_CTRL (tu_edpt_number ep_addr)).testBit 5 = true) ∧
    (tu_edpt_dir ep_addr = .TUSB_DIR_IN →
      res_field (s'.UEP_TX_CTRL (tu_edpt_number ep_addr)) = USBHS_EP_T_RES_NAK ∧
      (s'.UEP_TX_CTRL (tu_edpt_number ep_addr)).testBit 5 = true) := by
  cases hdir : tu_edpt_dir ep_addr
  · simp [dcd_edpt_clear_stall, hdir] at h
    subst h
    refine ⟨fun _ => ⟨?_, ?_⟩, fun hin => ?_⟩
    · simp [setRxCtrl, res_field, USBHS_EP_R_AUTOTOG, USBHS_EP_R_RES_NAK]
    · simp only [setRxCtrl, Function.update_same]
      decide
    · simp at hin
  · simp [dcd_edpt_clear_stall, hdir] at h
    subst h
    refine ⟨fun hout => ?_, fun _ => ⟨?_, ?_⟩⟩
    · simp at hout
    · simp [setTxCtrl, res_field, USBHS_EP_T_AUTOTOG, USBHS_EP_R_RES_NAK,
        USBHS_EP_T_RES_NAK]
    · simp only [setTxCtrl, Function.update_same]
      decide

/-- Witness for C6 on endpoint 1 IN (address 0x81) from the zero state. -/
theorem c6_clear_stall_nak_autotog_witness :
    (tu_edpt_dir 129 = .TUSB_DIR_OUT →
      res_field ((setTxCtrl zeroState 1 (USBHS_EP_T_AUTOTOG ||| USBHS_EP_R_RES_NAK)).UEP_RX_CTRL (tu_edpt_number 129))
        = USBHS_EP_R_RES_NAK ∧
      ((setTxCtrl zeroState 1 (USBHS_EP_T_AUTOTOG ||| USBHS_EP_R_RES_NAK)).UEP_RX_CTRL (tu_edpt_number 129)).testBit 5
        = true) ∧
    (tu_edpt_dir 129 = .TUSB_DIR_IN →
      res_field ((setTxCtrl zeroState 1 (USBHS_EP_T_AUTOTOG ||| USBHS_EP_R_RES_NAK)).UEP_TX_CTRL (tu_edpt_number 129))
        = USBHS_EP_T_RES_NAK ∧
      ((setTxCtrl zeroState 1 (USBHS_EP_T_AUTOTOG ||| USBHS_EP_R_RES_NAK)).UEP_TX_CTRL (tu_edpt_number 129)).testBit 5
        = true) :=
  c6_clear_stall_nak_autotog 0 129 zeroState
    (setTxCtrl zeroState 1 (USBHS_EP_T_AUTOTOG ||| USBHS_EP_R_RES_NAK)) rfl

lemma updCtl_same (f : Nat → tusb_dir_t → xfer_ctl_t) (ep : Nat)
    (d : tusb_dir_t) (v : xfer_ctl_t) : updCtl f ep d v ep d = v := by
  simp [updCtl]

lemma updCtl_other (f : Nat → tusb_dir_t → xfer_ctl_t) (ep : Nat)
    (d : tusb_dir_t) (v : xfer_ctl_t) (e : Nat) (d' : tusb_dir_t)
    (h : ¬(e = ep ∧ d' = d)) : updCtl f ep d v e d' = f e d' := by
  simp [updCtl, h]

lemma tu_edpt_dir_and15 (x : Nat) :
    tu_edpt_dir (x &&& 15) = .TUSB_DIR_OUT := by
  have h15 : x &&& 15 < 16 := Nat.lt_succ_of_le Nat.and_le_right
  have hall : ∀ n < 16, n &&& 128 = 0 := by decide
  simp [tu_edpt_dir, TUSB_DIR_IN_MASK, hall _ h15]

lemma ep_srt_preserves (a : Nat) (r : ep_response_list_t) (s : DcdState) :
    (ep_set_response_and_toggle a r s).xfer_status = s.xfer_status ∧
    (ep_set_response_and_toggle a r s).events = s.events ∧
    (ep_set_response_and_toggle a r s).ep0_data_in_out_buffer
      = s.ep0_data_in_out_buffer ∧
    (ep_set_response_and_toggle a r s).UEP_TX_LEN = s.UEP_TX_LEN ∧
    (ep_set_response_and_toggle a r s).UEP_RX_MAX_LEN = s.UEP_RX_MAX_LEN ∧
    (ep_set_response_and_toggle a r s).DEV_AD = s.DEV_AD ∧
    (ep_set_response_and_toggle a r s).INT_FG = s.INT_FG := by
  unfold ep_set_response_and_toggle setTxCtrl setRxCtrl
  repeat' split
  all_goals simp [apply_ite]

lemma ep_srt_xfer_status (a : Nat) (r : ep_response_list_t) (s : DcdState) :
    (ep_set_response_and_toggle a r s).xfer_status = s.xfer_status :=
  (ep_srt_preserves a r s).1

lemma ep_srt_events (a : Nat) (r : ep_response_list_t) (s : DcdState) :
    (ep_set_response_and_toggle a r s).events = s.events :=
  (ep_srt_preserves a r s).2.1

/-- C2: in the transfer-complete interrupt branch for an OUT token, if the
hardware-reported received length is strictly less than the context's
`max_size`, then `is_last_packet` is set true regardless of how many
expected bytes remain (no hypothesis relates `queued_len` and `total_len`),
and the emitted completion event carries the final `queued_len` (the
previous value plus the received length, as a uint16) with success status
and the short-packet-permitted flag true. -/
theorem c2_out_short_packet (rh int_flag int_status RX_LEN ep_num : Nat)
    (s : DcdState)
    (h1 : int_flag &&& USBHS_TRANSFER_FLAG ≠ 0)
    (htok : int_status &&& MASK_UIS_TOKEN = USBHS_TOKEN_PID_OUT)
    (hep : int_status &&& MASK_UIS_ENDP = ep_num)
    (hshort : RX_LEN < (s.xfer_status ep_num .TUSB_DIR_OUT).max_size) :
    ((dcd_int_handler rh int_flag int_status RX_LEN s).xfer_status ep_num
        .TUSB_DIR_OUT).is_last_packet = true ∧
    ((dcd_int_handler rh int_flag int_status RX_LEN s).xfer_status ep_num
        .TUSB_DIR_OUT).queued_len
      = ((s.xfer_status ep_num .TUSB_DIR_OUT).queued_len + RX_LEN) % 65536 ∧
    (dcd_int_handler rh int_flag int_status RX_LEN s).events
      = s.events ++
        [DcdEvent.xfer_complete ep_num
          (((s.xfer_status ep_num .TUSB_DIR_OUT).queued_len + RX_LEN) % 65536)
          .XFER_RESULT_SUCCESS true] := by
  have hdir : tu_edpt_dir ep_num = .TUSB_DIR_OUT := by
    rw [← hep]
    exact tu_edpt_dir_and15 int_status
  unfold dcd_int_handler
  rw [if_pos h1]
  by_cases hn : ep_num = 0
  · subst hn
    simp [hep, htok, hdir, USBHS_TOKEN_PID_OUT, USBHS_TOKEN_PID_IN,
      setCtl, updCtl_same, emit, ep_srt_xfer_status, ep_srt_events, hshort, updCtl]
  · simp [hep, htok, hdir, hn, USBHS_TOKEN_PID_OUT, USBHS_TOKEN_PID_IN,
      setCtl, updCtl_same, emit, ep_srt_xfer_status, ep_srt_events, hshort, updCtl]

/-- A concrete armed OUT transfer context on endpoint 1 (expecting 100
bytes in 64-byte packets), used as the C2 witness state. -/
def c2_state : DcdState :=
  setCtl zeroState 1 .TUSB_DIR_OUT
    { zero_xfer_ctl with total_len := 100, max_size := 64 }

/-- Witness for C2: endpoint 1 receives a 10-byte short packet. -/
theorem c2_out_short_packet_witness :
    ((dcd_int_handler 0 2 1 10 c2_state).xfer_status 1
        .TUSB_DIR_OUT).is_last_packet = true ∧
    ((dcd_int_handler 0 2 1 10 c2_state).xfer_status 1
        .TUSB_DIR_OUT).queued_len
      = ((c2_state.xfer_status 1 .TUSB_DIR_OUT).queued_len + 10) % 65536 ∧
    (dcd_int_handler 0 2 1 10 c2_state).events
      = c2_state.events ++
        [DcdEvent.xfer_complete 1
          (((c2_state.xfer_status 1 .TUSB_DIR_OUT).queued_len + 10) % 65536)
          .XFER_RESULT_SUCCESS true] :=
  c2_out_short_packet 0 2 1 10 1 c2_state (by decide) (by decide) (by decide)
    (by decide)

lemma ep_srt_DEV_AD (a : Nat) (r : ep_response_list_t) (s : DcdState) :
    (ep_set_response_and_toggle a r s).DEV_AD = s.DEV_AD :=
  (ep_srt_preserves a r s).2.2.2.2.2.1

lemma xdp_DEV_AD (a : Nat) (s : DcdState) :
    (xfer_data_packet a s).DEV_AD = s.DEV_AD := by
  simp only [xfer_data_packet, ep_srt_DEV_AD]
  repeat' split
  all_goals simp [setCtl, setTxLen, setTxDma, setRxDma, setRxMaxLen]

lemma handler_DEV_AD_preserved (rh fl st rx : Nat) (s : DcdState)
    (h : fl &&& USBHS_TRANSFER_FLAG ≠ 0 ∨ fl &&& USBHS_SETUP_FLAG ≠ 0 ∨
         fl &&& USBHS_DETECT_FLAG = 0) :
    (dcd_int_handler rh fl st rx s).DEV_AD = s.DEV_AD := by
  unfold dcd_int_handler
  by_cases hT : fl &&& USBHS_TRANSFER_FLAG ≠ 0
  · rw [if_pos hT]
    simp only []
    repeat' split
    all_goals simp [setCtl, emit, ep_srt_DEV_AD, xdp_DEV_AD]
  · rw [if_neg hT]
    by_cases hS : fl &&& USBHS_SETUP_FLAG ≠ 0
    · rw [if_pos hS]
      simp [emit, ep_srt_DEV_AD]
    · rw [if_neg hS]
      have hD : fl &&& USBHS_DETECT_FLAG = 0 := by
        rcases h with h | h | h
        · exact absurd h hT
        · exact absurd h hS
        · exact h
      rw [if_neg (by simp [hD])]
      by_cases hSu : fl &&& USBHS_SUSPEND_FLAG ≠ 0
      · rw [if_pos hSu]
        simp [emit]
      · rw [if_neg hSu]

lemma handler_DEV_AD_detect (rh fl st rx : Nat) (s : DcdState)
    (h1 : fl &&& USBHS_TRANSFER_FLAG = 0) (h2 : fl &&& USBHS_SETUP_FLAG = 0)
    (h3 : fl &&& USBHS_DETECT_FLAG ≠ 0) :
    (dcd_int_handler rh fl st rx s).DEV_AD = 0 := by
  unfold dcd_int_handler
  rw [if_neg (by simp [h1]), if_neg (by simp [h2]), if_pos h3]
  simp [emit, setRxCtrl, setTxCtrl]

/-- C10: `dcd_set_address` never writes the device address register: it is
exactly `dcd_edpt_xfer` on endpoint 0 IN with a NULL buffer and length 0
(queuing the zero-length status packet) and leaves `DEV_AD` unchanged; and
across every entry point of the driver, `DEV_AD` changes only in
`dcd_edpt0_status_complete` (set to the request wValue, as uint8, exactly
for a standard SET_ADDRESS device request), in the bus-reset (detect)
interrupt branch (set to 0), and in `dcd_init` (set to 0); every other
operation, and every other interrupt branch, preserves it. -/
theorem c10_set_address_frame :
    (∀ rh a s, dcd_set_address rh a s = dcd_edpt_xfer rh 128 [] 0 s) ∧
    (∀ rh a s s' b, dcd_set_address rh a s = some (s', b) →
      s'.DEV_AD = s.DEV_AD) ∧
    (∀ rh req s,
      req.recipient = TUSB_REQ_RCPT_DEVICE ∧
      req.requestType = TUSB_REQ_TYPE_STANDARD ∧
      req.bRequest = TUSB_REQ_SET_ADDRESS →
      (dcd_edpt0_status_complete rh req s).DEV_AD = req.wValue % 256) ∧
    (∀ rh req s,
      ¬(req.recipient = TUSB_REQ_RCPT_DEVICE ∧
        req.requestType = TUSB_REQ_TYPE_STANDARD ∧
        req.bRequest = TUSB_REQ_SET_ADDRESS) →
      (dcd_edpt0_status_complete rh req s).DEV_AD = s.DEV_AD) ∧
    (∀ rh s, (dcd_init rh s).DEV_AD = 0) ∧
    (∀ rh d s s' b, dcd_edpt_open rh d s = some (s', b) →
      s'.DEV_AD = s.DEV_AD) ∧
    (∀ rh a s s', dcd_edpt_close rh a s = some s' → s'.DEV_AD = s.DEV_AD) ∧
    (∀ rh s, (dcd_edpt_close_all rh s).DEV_AD = s.DEV_AD) ∧
    (∀ rh a s s', dcd_edpt_stall rh a s = some s' → s'.DEV_AD = s.DEV_AD) ∧
    (∀ rh a s s', dcd_edpt_clear_stall rh a s = some s' →
      s'.DEV_AD = s.DEV_AD) ∧
    (∀ rh a buf n s s' b, dcd_edpt_xfer rh a buf n s = some (s', b) →
      s'.DEV_AD = s.DEV_AD) ∧
    (∀ rh s, (dcd_int_enable rh s).DEV_AD = s.DEV_AD) ∧
    (∀ rh s, (dcd_int_disable rh s).DEV_AD = s.DEV_AD) ∧
    (∀ rh s, (dcd_remote_wakeup rh s).DEV_AD = s.DEV_AD) ∧
    (∀ rh fl st rx s,
      fl &&& USBHS_TRANSFER_FLAG ≠ 0 ∨ fl &&& USBHS_SETUP_FLAG ≠ 0 ∨
        fl &&& USBHS_DETECT_FLAG = 0 →
      (dcd_int_handler rh fl st rx s).DEV_AD = s.DEV_AD) ∧
    (∀ rh fl st rx s, fl &&& USBHS_TRANSFER_FLAG = 0 →
      fl &&& USBHS_SETUP_FLAG = 0 → fl &&& USBHS_DETECT_FLAG ≠ 0 →
      (dcd_int_handler rh fl st rx s).DEV_AD = 0) := by
  refine ⟨fun rh a s => rfl, ?_, ?_, ?_, ?_, ?_, ?_, ?_, ?_, ?_, ?_,
    fun rh s => rfl, fun rh s => rfl, fun rh s => rfl,
    handler_DEV_AD_preserved, handler_DEV_AD_detect⟩
  · intro rh a s s' b h
    simp only [dcd_set_address, dcd_edpt_xfer, Option.some.injEq,
      Prod.mk.injEq] at h
    obtain ⟨h1, -⟩ := h
    subst h1
    rw [xdp_DEV_AD]
    simp [xfer_arm, setCtl]
  · intro rh req s hreq
    simp [dcd_edpt0_status_complete, hreq, setTxCtrl, setRxCtrl]
  · intro rh req s hreq
    simp [dcd_edpt0_status_complete, hreq, setTxCtrl, setRxCtrl]
  · intro rh s
    simp [dcd_init, setCtl, setRxMaxLen]
  · intro rh d s s' b
    unfold dcd_edpt_open
    simp only []
    repeat' split
    all_goals intro h
    all_goals simp only [Option.some.injEq, Prod.mk.injEq,
      reduceCtorEq] at h
    all_goals obtain ⟨h1, -⟩ := h
    all_goals subst h1
    all_goals simp [setCtl, setRxCtrl, setRxMaxLen, setTxLen, setTxCtrl]
  · intro rh a s s'
    unfold dcd_edpt_close
    simp only []
    split
    all_goals intro h
    all_goals simp only [Option.some.injEq] at h
    all_goals subst h
    all_goals simp [setRxCtrl, setRxMaxLen, setTxCtrl, setTxLen]
  · intro rh s
    simp [dcd_edpt_close_all]
  · intro rh a s s'
    unfold dcd_edpt_stall
    simp only []
    split
    all_goals intro h
    all_goals simp only [Option.some.injEq] at h
    all_goals subst h
    all_goals simp [setRxCtrl, setTxCtrl, setTxLen]
  · intro rh a s s'
    unfold dcd_edpt_clear_stall
    simp only []
    split
    all_goals intro h
    all_goals simp only [Option.some.injEq] at h
    all_goals subst h
    all_goals simp [setRxCtrl, setTxCtrl]
  · intro rh a buf n s s' b h
    simp only [dcd_edpt_xfer, Option.some.injEq, Prod.mk.injEq] at h
    obtain ⟨h1, -⟩ := h
    subst h1
    rw [xdp_DEV_AD]
    simp [xfer_arm, setCtl]

/-- Witness for C10: a concrete standard SET_ADDRESS status-complete call
latches wValue 77 into the device address register. -/
theorem c10_set_address_frame_witness :
    (dcd_edpt0_status_complete 0 ⟨0, 0, 5, 77⟩ zeroState).DEV_AD = 77 % 256 :=
  c10_set_address_frame.2.2.1 0 ⟨0, 0, 5, 77⟩ zeroState ⟨rfl, rfl, rfl⟩

/-- The pure effect of one IN packetizer call on the armed context. -/
def inStepCtl (x : xfer_ctl_t) : xfer_ctl_t :=
  let next := min (sub16 x.total_len x.queued_len) x.max_size
  let q' := (x.queued_len + next) % 65536
  { x with queued_len := q',
           is_last_packet := if q' = x.total_len then true else x.is_last_packet }

/-- The pure effect of one OUT packetizer call on the armed context. -/
def outStepCtl (x : xfer_ctl_t) : xfer_ctl_t :=
  { x with is_last_packet :=
      if min x.max_size (sub16 x.total_len x.queued_len)
         = sub16 x.total_len x.queued_len then true
      else x.is_last_packet }

/-- The chunk size the IN packetizer arms for a context. -/
def inChunk (x : xfer_ctl_t) : Nat :=
  min (sub16 x.total_len x.queued_len) x.max_size

lemma xdp_xfer_status_in (a : Nat) (s : DcdState)
    (hdir : tu_edpt_dir a = .TUSB_DIR_IN) :
    (xfer_data_packet a s).xfer_status
      = updCtl s.xfer_status (tu_edpt_number a) .TUSB_DIR_IN
          (inStepCtl (s.xfer_status (tu_edpt_number a) .TUSB_DIR_IN)) := by
  unfold xfer_data_packet
  simp only [ep_srt_xfer_status, hdir]
  by_cases hn : tu_edpt_number a = 0 <;>
    simp [hn, setCtl, setTxLen, setTxDma, inStepCtl]

lemma xdp_xfer_status_out (a : Nat) (s : DcdState)
    (hdir : tu_edpt_dir a = .TUSB_DIR_OUT) :
    (xfer_data_packet a s).xfer_status
      = updCtl s.xfer_status (tu_edpt_number a) .TUSB_DIR_OUT
          (outStepCtl (s.xfer_status (tu_edpt_number a) .TUSB_DIR_OUT)) := by
  unfold xfer_data_packet
  simp only [ep_srt_xfer_status, hdir]
  by_cases hn : tu_edpt_number a = 0
  · simp [hn, setCtl, setRxMaxLen, setRxDma, outStepCtl]
  · have : 0 < tu_edpt_number a := Nat.pos_of_ne_zero hn
    simp [hn, this, setCtl, setRxMaxLen, setRxDma, outStepCtl]

lemma xdp_tx_len_in (a : Nat) (s : DcdState)
    (hdir : tu_edpt_dir a = .TUSB_DIR_IN) :
    (xfer_data_packet a s).UEP_TX_LEN
      = Function.update s.UEP_TX_LEN (tu_edpt_number a)
          (inChunk (s.xfer_status (tu_edpt_number a) .TUSB_DIR_IN)) := by
  unfold xfer_data_packet
  simp only [(ep_srt_preserves _ _ _).2.2.2.1, hdir]
  by_cases hn : tu_edpt_number a = 0 <;>
    simp [hn, setCtl, setTxLen, setTxDma, inChunk]

/-- Well-formedness of a transfer context: the claimed invariant
`queued_len ≤ total_len` together with the uint16 representation bound on
`total_len` that the C type system provides. -/
def ctl_wf (x : xfer_ctl_t) : Prop :=
  x.queued_len ≤ x.total_len ∧ x.total_len < 65536

lemma sub16_eq (a b : Nat) (h1 : b ≤ a) (h2 : a < 65536) :
    sub16 a b = a - b := by
  have h3 : a + 65536 - b = (a - b) + 65536 := by omega
  rw [sub16, h3, Nat.add_mod_right, Nat.mod_eq_of_lt (by omega)]

lemma inStepCtl_wf (x : xfer_ctl_t) (h : ctl_wf x) : ctl_wf (inStepCtl x) := by
  obtain ⟨h1, h2⟩ := h
  have hs : sub16 x.total_len x.queued_len = x.total_len - x.queued_len :=
    sub16_eq _ _ h1 h2
  have hle : x.queued_len + min (x.total_len - x.queued_len) x.max_size
      ≤ x.total_len := by
    have := Nat.min_le_left (x.total_len - x.queued_len) x.max_size
    omega
  simp [inStepCtl, ctl_wf, hs, Nat.mod_eq_of_lt (lt_of_le_of_lt hle h2), hle, h2]

lemma outStepCtl_wf (x : xfer_ctl_t) (h : ctl_wf x) : ctl_wf (outStepCtl x) := by
  obtain ⟨h1, h2⟩ := h
  exact ⟨h1, h2⟩

lemma xdp_ctl_wf (a : Nat) (s : DcdState)
    (h : ∀ e d, ctl_wf (s.xfer_status e d)) :
    ∀ e d, ctl_wf ((xfer_data_packet a s).xfer_status e d) := by
  intro e d
  cases hdir : tu_edpt_dir a
  · rw [xdp_xfer_status_out a s hdir]
    by_cases he : e = tu_edpt_number a ∧ d = .TUSB_DIR_OUT
    · obtain ⟨he1, he2⟩ := he
      subst he1
      subst he2
      rw [updCtl_same]
      exact outStepCtl_wf _ (h _ _)
    · rw [updCtl_other _ _ _ _ _ _ he]
      exact h e d
  · rw [xdp_xfer_status_in a s hdir]
    by_cases he : e = tu_edpt_number a ∧ d = .TUSB_DIR_IN
    · obtain ⟨he1, he2⟩ := he
      subst he1
      subst he2
      rw [updCtl_same]
      exact inStepCtl_wf _ (h _ _)
    · rw [updCtl_other _ _ _ _ _ _ he]
      exact h e d

lemma arm_ctl_wf (a : Nat) (buf : List Nat) (n : Nat) (s : DcdState)
    (h : ∀ e d, ctl_wf (s.xfer_status e d)) :
    ∀ e d, ctl_wf ((xfer_arm a buf n s).xfer_status e d) := by
  intro e d
  unfold xfer_arm setCtl
  by_cases he : e = tu_edpt_number a ∧ d = tu_edpt_dir a
  · obtain ⟨he1, he2⟩ := he
    subst he1
    subst he2
    simp [updCtl_same, ctl_wf, Nat.mod_lt]
  · simp only []
    rw [updCtl_other _ _ _ _ _ _ he]
    exact h e d

lemma init_ctl_wf (rh : Nat) (s : DcdState) :
    ∀ e d, ctl_wf ((dcd_init rh s).xfer_status e d) := by
  intro e d
  simp only [dcd_init, setCtl, setRxMaxLen]
  by_cases h1 : e = 0 ∧ d = tusb_dir_t.TUSB_DIR_IN
  · obtain ⟨he1, he2⟩ := h1
    subst he1
    subst he2
    simp [updCtl_same, updCtl, ctl_wf, zero_xfer_ctl]
  · rw [updCtl_other _ _ _ _ _ _ h1]
    by_cases h2 : e = 0 ∧ d = tusb_dir_t.TUSB_DIR_OUT
    · obtain ⟨he1, he2⟩ := h2
      subst he1
      subst he2
      simp [updCtl_same, updCtl, ctl_wf, zero_xfer_ctl]
    · rw [updCtl_other _ _ _ _ _ _ h2]
      simp [ctl_wf, zero_xfer_ctl]

lemma wf_updCtl (f : Nat → tusb_dir_t → xfer_ctl_t) (n : Nat)
    (d0 : tusb_dir_t) (v : xfer_ctl_t)
    (hf : ∀ e d, ctl_wf (f e d)) (hv : ctl_wf v) :
    ∀ e d, ctl_wf (updCtl f n d0 v e d) := by
  intro e d
  by_cases he : e = n ∧ d = d0
  · obtain ⟨h1, h2⟩ := he
    subst h1
    subst h2
    rw [updCtl_same]
    exact hv
  · rw [updCtl_other _ _ _ _ _ _ he]
    exact hf e d

lemma tu_edpt_number_small (n : Nat) (h : n < 16) : tu_edpt_number n = n := by
  have : ∀ m < 16, tu_edpt_number m = m := by decide
  exact this n h

lemma handler_transfer_ctl_wf (rh fl st rx n : Nat) (s : DcdState)
    (hT : fl &&& USBHS_TRANSFER_FLAG ≠ 0)
    (hep : st &&& MASK_UIS_ENDP = n)
    (h : ∀ e d, ctl_wf (s.xfer_status e d))
    (hrx : st &&& MASK_UIS_TOKEN = USBHS_TOKEN_PID_OUT →
      rx ≤ (s.xfer_status n .TUSB_DIR_OUT).total_len
            - (s.xfer_status n .TUSB_DIR_OUT).queued_len) :
    ∀ e d, ctl_wf ((dcd_int_handler rh fl st rx s).xfer_status e d) := by
  have hn16 : n < 16 := by
    rw [← hep, MASK_UIS_ENDP]
    exact Nat.lt_succ_of_le Nat.and_le_right
  have hnum : tu_edpt_number n = n := tu_edpt_number_small n hn16
  have hdir : tu_edpt_dir n = .TUSB_DIR_OUT := by
    rw [← hep, MASK_UIS_ENDP]
    exact tu_edpt_dir_and15 st
  unfold dcd_int_handler
  rw [if_pos hT]
  by_cases htok : st &&& MASK_UIS_TOKEN = USBHS_TOKEN_PID_OUT
  · have hrx' := hrx htok
    obtain ⟨hq, ht⟩ := h n .TUSB_DIR_OUT
    have hwfq : ctl_wf
        { s.xfer_status n .TUSB_DIR_OUT with
          queued_len := ((s.xfer_status n .TUSB_DIR_OUT).queued_len + rx) % 65536 } := by
      constructor
      · show ((s.xfer_status n .TUSB_DIR_OUT).queued_len + rx) % 65536
            ≤ (s.xfer_status n .TUSB_DIR_OUT).total_len
        rw [Nat.mod_eq_of_lt (by omega)]
        omega
      · exact ht
    have hwfq2 : ctl_wf
        { s.xfer_status n .TUSB_DIR_OUT with
          queued_len := ((s.xfer_status n .TUSB_DIR_OUT).queued_len + rx) % 65536,
          is_last_packet := true } := hwfq
    have hwfb : ctl_wf
        { s.xfer_status n .TUSB_DIR_OUT with
          buffer := memcpyList (s.xfer_status n .TUSB_DIR_OUT).buffer
            (s.xfer_status n .TUSB_DIR_OUT).queued_len s.ep0_data_in_out_buffer rx } :=
      ⟨hq, ht⟩
    have hwfbq : ctl_wf
        { s.xfer_status n .TUSB_DIR_OUT with
          buffer := memcpyList (s.xfer_status n .TUSB_DIR_OUT).buffer
            (s.xfer_status n .TUSB_DIR_OUT).queued_len s.ep0_data_in_out_buffer rx,
          queued_len := ((s.xfer_status n .TUSB_DIR_OUT).queued_len + rx) % 65536 } := hwfq
    have hwfbq2 : ctl_wf
        { s.xfer_status n .TUSB_DIR_OUT with
          buffer := memcpyList (s.xfer_status n .TUSB_DIR_OUT).buffer
            (s.xfer_status n .TUSB_DIR_OUT).queued_len s.ep0_data_in_out_buffer rx,
          queued_len := ((s.xfer_status n .TUSB_DIR_OUT).queued_len + rx) % 65536,
          is_last_packet := true } := hwfq
    by_cases hn0 : n = 0
    · subst hn0
      simp only [hep, htok, USBHS_TOKEN_PID_OUT, USBHS_TOKEN_PID_IN,
        Nat.reduceEqDiff, if_false, if_true, hdir, hnum]
      simp only [setCtl, updCtl_same, emit, ep_srt_xfer_status, hdir]
      intro e d
      repeat' split
      all_goals first
        | exact wf_updCtl _ _ _ _ (wf_updCtl _ _ _ _ h hwfb) hwfbq2 e d
        | exact wf_updCtl _ _ _ _ (wf_updCtl _ _ _ _ h hwfb) hwfbq e d
        | (refine xdp_ctl_wf _ _ (fun e' d' => ?_) e d
           first
            | exact wf_updCtl _ _ _ _ (wf_updCtl _ _ _ _ h hwfb) hwfbq2 e' d'
            | exact wf_updCtl _ _ _ _ (wf_updCtl _ _ _ _ h hwfb) hwfbq e' d')
    · simp only [hep, htok, USBHS_TOKEN_PID_OUT, USBHS_TOKEN_PID_IN,
        Nat.reduceEqDiff, if_false, if_true, hdir, hnum, if_neg hn0]
      simp only [setCtl, updCtl_same, emit, ep_srt_xfer_status, hdir]
      intro e d
      repeat' split
      all_goals first
        | exact wf_updCtl _ _ _ _ h hwfq2 e d
        | exact wf_updCtl _ _ _ _ h hwfq e d
        | (refine xdp_ctl_wf _ _ (fun e' d' => ?_) e d
           first
            | exact wf_updCtl _ _ _ _ h hwfq2 e' d'
            | exact wf_updCtl _ _ _ _ h hwfq e' d')
  · simp only [if_neg htok]
    intro e d
    repeat' split
    all_goals first
      | exact h e d
      | exact xdp_ctl_wf _ _ h e d
      | (simp only [emit, ep_srt_xfer_status]
         exact h e d)

/-- A concrete state whose endpoint-1 OUT context expects 1 byte
(`total_len = 1`, `queued_len = 0`), satisfying the claimed invariant. -/
def c3_state : DcdState :=
  setCtl zeroState 1 .TUSB_DIR_OUT
    { zero_xfer_ctl with total_len := 1, max_size := 64 }

/-- C3 counterexample: from a state satisfying the invariant
(`queued_len = 0 ≤ 1 = total_len` on endpoint 1 OUT), one OUT
transfer-complete interrupt whose hardware-reported length 2 exceeds the
remaining expected byte leaves `queued_len = 2 > 1 = total_len`: the OUT
branch adds the reported length unchecked, so the invariant is not
preserved by it for every hardware report. -/
theorem c3_counterexample_overlong_rx :
    ((c3_state.xfer_status 1 .TUSB_DIR_OUT).queued_len
      ≤ (c3_state.xfer_status 1 .TUSB_DIR_OUT).total_len) ∧
    ((dcd_int_handler 0 2 1 2 c3_state).xfer_status 1 .TUSB_DIR_OUT).queued_len = 2 ∧
    ((dcd_int_handler 0 2 1 2 c3_state).xfer_status 1 .TUSB_DIR_OUT).total_len = 1 ∧
    ¬ (((dcd_int_handler 0 2 1 2 c3_state).xfer_status 1 .TUSB_DIR_OUT).queued_len
        ≤ ((dcd_int_handler 0 2 1 2 c3_state).xfer_status 1 .TUSB_DIR_OUT).total_len) := by
  refine ⟨by decide, by decide, by decide, by decide⟩

/-- C3 amended: the invariant `0 ≤ queued_len ≤ total_len` (with the
uint16 representation bound on `total_len`; `0 ≤` is inherent in `Nat`)
holds for every context after `dcd_init`, and is preserved for every
context by `dcd_edpt_xfer`, by `xfer_data_packet`, and by the
transfer-complete interrupt branch provided the hardware-reported OUT
length does not exceed the remaining expected bytes
(`total_len - queued_len`); with a larger report the OUT branch breaks it
(see the counterexample). -/
theorem c3_queued_le_total_invariant :
    (∀ rh s e d, ctl_wf ((dcd_init rh s).xfer_status e d)) ∧
    (∀ rh a buf nb s s' b, dcd_edpt_xfer rh a buf nb s = some (s', b) →
      (∀ e d, ctl_wf (s.xfer_status e d)) →
      ∀ e d, ctl_wf (s'.xfer_status e d)) ∧
    (∀ a s, (∀ e d, ctl_wf (s.xfer_status e d)) →
      ∀ e d, ctl_wf ((xfer_data_packet a s).xfer_status e d)) ∧
    (∀ rh fl st rx n s, fl &&& USBHS_TRANSFER_FLAG ≠ 0 →
      st &&& MASK_UIS_ENDP = n →
      (∀ e d, ctl_wf (s.xfer_status e d)) →
      (st &&& MASK_UIS_TOKEN = USBHS_TOKEN_PID_OUT →
        rx ≤ (s.xfer_status n .TUSB_DIR_OUT).total_len
              - (s.xfer_status n .TUSB_DIR_OUT).queued_len) →
      ∀ e d, ctl_wf ((dcd_int_handler rh fl st rx s).xfer_status e d)) := by
  refine ⟨init_ctl_wf, ?_, fun a s h => xdp_ctl_wf a s h,
    fun rh fl st rx n s hT hep h hrx =>
      handler_transfer_ctl_wf rh fl st rx n s hT hep h hrx⟩
  intro rh a buf nb s s' b heq h
  simp only [dcd_edpt_xfer, Option.some.injEq, Prod.mk.injEq] at heq
  obtain ⟨h1, -⟩ := heq
  subst h1
  exact xdp_ctl_wf _ _ (arm_ctl_wf _ _ _ _ h)

/-- Witness for the amended C3: the transfer-complete conjunct applied at
a concrete interrupt on the zero state. -/
theorem c3_queued_le_total_invariant_witness :
    ctl_wf ((dcd_int_handler 0 2 1 0 zeroState).xfer_status 1 .TUSB_DIR_OUT) :=
  c3_queued_le_total_invariant.2.2.2 0 2 1 0 1 zeroState (by decide) (by decide)
    (fun _ _ => ⟨Nat.zero_le _, show (0 : Nat) < 65536 by decide⟩)
    (fun _ => Nat.zero_le _) 1
    .TUSB_DIR_OUT

lemma inStepCtl_total (x : xfer_ctl_t) : (inStepCtl x).total_len = x.total_len :=
  rfl

lemma inStepCtl_max (x : xfer_ctl_t) : (inStepCtl x).max_size = x.max_size :=
  rfl

lemma inStepCtl_queued (x : xfer_ctl_t) (hq : x.queued_len ≤ x.total_len)
    (ht : x.total_len < 65536) :
    (inStepCtl x).queued_len
      = x.queued_len + min (x.total_len - x.queued_len) x.max_size := by
  have h1 : min (x.total_len - x.queued_len) x.max_size
      ≤ x.total_len - x.queued_len := Nat.min_le_left _ _
  simp only [inStepCtl, sub16_eq _ _ hq ht]
  exact Nat.mod_eq_of_lt (by omega)

lemma inStepCtl_last_of_le (x : xfer_ctl_t) (hq : x.queued_len ≤ x.total_len)
    (ht : x.total_len < 65536)
    (hle : x.total_len - x.queued_len ≤ x.max_size) :
    (inStepCtl x).is_last_packet = true := by
  have h1 : min (x.total_len - x.queued_len) x.max_size
      = x.total_len - x.queued_len := min_eq_left hle
  have h2 : x.queued_len + (x.total_len - x.queued_len) = x.total_len := by
    omega
  simp [inStepCtl, sub16_eq _ _ hq ht, h1, h2, Nat.mod_eq_of_lt ht]

lemma inStepCtl_last_of_gt (x : xfer_ctl_t) (hq : x.queued_len ≤ x.total_len)
    (ht : x.total_len < 65536) (hlast : x.is_last_packet = false)
    (hgt : x.max_size < x.total_len - x.queued_len) :
    (inStepCtl x).is_last_packet = false := by
  have h1 : min (x.total_len - x.queued_len) x.max_size = x.max_size :=
    min_eq_right (le_of_lt hgt)
  have h2 : (x.queued_len + x.max_size) % 65536 = x.queued_len + x.max_size :=
    Nat.mod_eq_of_lt (by omega)
  have h3 : ¬ x.queued_len + x.max_size = x.total_len := by omega
  simp [inStepCtl, sub16_eq _ _ hq ht, h1, h2, h3, hlast]

lemma collectIN_spec (ep_addr : Nat)
    (hdir : tu_edpt_dir ep_addr = .TUSB_DIR_IN) :
    ∀ rem fuel s,
      ((s : DcdState).xfer_status (tu_edpt_number ep_addr) .TUSB_DIR_IN).is_last_packet = false →
      (s.xfer_status (tu_edpt_number ep_addr) .TUSB_DIR_IN).queued_len
        ≤ (s.xfer_status (tu_edpt_number ep_addr) .TUSB_DIR_IN).total_len →
      (s.xfer_status (tu_edpt_number ep_addr) .TUSB_DIR_IN).total_len < 65536 →
      0 < (s.xfer_status (tu_edpt_number ep_addr) .TUSB_DIR_IN).max_size →
      rem = (s.xfer_status (tu_edpt_number ep_addr) .TUSB_DIR_IN).total_len
            - (s.xfer_status (tu_edpt_number ep_addr) .TUSB_DIR_IN).queued_len →
      rem < fuel →
      (collectIN ep_addr fuel s).1.sum
          + (s.xfer_status (tu_edpt_number ep_addr) .TUSB_DIR_IN).queued_len
        = (s.xfer_status (tu_edpt_number ep_addr) .TUSB_DIR_IN).total_len ∧
      (∀ c ∈ (collectIN ep_addr fuel s).1,
        c ≤ (s.xfer_status (tu_edpt_number ep_addr) .TUSB_DIR_IN).max_size) ∧
      (∀ c ∈ (collectIN ep_addr fuel s).1.dropLast,
        c = (s.xfer_status (tu_edpt_number ep_addr) .TUSB_DIR_IN).max_size) ∧
      (collectIN ep_addr fuel s).1 ≠ [] ∧
      (collectIN ep_addr fuel s).2
        = (fun t => xfer_data_packet ep_addr t)^[(collectIN ep_addr fuel s).1.length] s ∧
      (∀ k < (collectIN ep_addr fuel s).1.length,
        (((fun t => xfer_data_packet ep_addr t)^[k] s).xfer_status
            (tu_edpt_number ep_addr) .TUSB_DIR_IN).is_last_packet = false) ∧
      ((collectIN ep_addr fuel s).2.xfer_status
          (tu_edpt_number ep_addr) .TUSB_DIR_IN).is_last_packet = true ∧
      (rem ≤ (s.xfer_status (tu_edpt_number ep_addr) .TUSB_DIR_IN).max_size →
        (collectIN ep_addr fuel s).1 = [rem]) := by
  intro rem
  induction rem using Nat.strong_induction_on with
  | _ rem IH =>
  intro fuel s hlast hq ht hm hrem hfuel
  obtain ⟨f, rfl⟩ : ∃ f, fuel = f + 1 := ⟨fuel - 1, by omega⟩
  set x := s.xfer_status (tu_edpt_number ep_addr) .TUSB_DIR_IN with hxdef
  have hxs : (xfer_data_packet ep_addr s).xfer_status (tu_edpt_number ep_addr)
      .TUSB_DIR_IN = inStepCtl x := by
    rw [xdp_xfer_status_in _ _ hdir, updCtl_same]
  have hlen : (xfer_data_packet ep_addr s).UEP_TX_LEN (tu_edpt_number ep_addr)
      = inChunk x := by
    rw [xdp_tx_len_in _ _ hdir, Function.update_same]
  have hchunk : inChunk x = min rem x.max_size := by
    rw [inChunk, sub16_eq _ _ hq ht, hrem]
  by_cases hcase : rem ≤ x.max_size
  · have hl' : (inStepCtl x).is_last_packet = true :=
      inStepCtl_last_of_le _ hq ht (by omega)
    have hres : collectIN ep_addr (f + 1) s = ([rem], xfer_data_packet ep_addr s) := by
      simp only [collectIN, hxs, hl', if_true, hlen, hchunk, min_eq_left hcase]
    rw [hres]
    refine ⟨by simp; omega, ?_, by simp, by simp, ?_, ?_, ?_, fun _ => rfl⟩
    · intro c hc
      simp at hc
      omega
    · simp [Function.iterate_one]
    · intro k hk
      simp at hk
      subst hk
      simpa using hlast
    · simpa [hxs] using hl'
  · have hgt : x.max_size < rem := by omega
    have hq' : (inStepCtl x).queued_len = x.queued_len + x.max_size := by
      rw [inStepCtl_queued _ hq ht, min_eq_right (by omega)]
    have hlast' : (inStepCtl x).is_last_packet = false :=
      inStepCtl_last_of_gt _ hq ht hlast (by omega)
    obtain ⟨ih1, ih2, ih3, ih4, ih5, ih6, ih7, ih8⟩ :=
      IH (rem - x.max_size) (by omega) f (xfer_data_packet ep_addr s)
        (by rw [hxs]; exact hlast')
        (by rw [hxs, hq', inStepCtl_total]; omega)
        (by rw [hxs, inStepCtl_total]; exact ht)
        (by rw [hxs, inStepCtl_max]; exact hm)
        (by rw [hxs, hq', inStepCtl_total]; omega)
        (by omega)
    rw [hxs, hq', inStepCtl_total] at ih1
    rw [hxs, inStepCtl_max] at ih2 ih3 ih8
    have hres : collectIN ep_addr (f + 1) s
        = (x.max_size :: (collectIN ep_addr f (xfer_data_packet ep_addr s)).1,
           (collectIN ep_addr f (xfer_data_packet ep_addr s)).2) := by
      simp only [collectIN, hxs, hlast', Bool.false_eq_true, if_false, hlen,
        hchunk, min_eq_right (by omega : x.max_size ≤ rem)]
    rw [hres]
    refine ⟨?_, ?_, ?_, by simp, ?_, ?_, ?_, fun hle => absurd hle (by omega)⟩
    · simp only [List.sum_cons]
      omega
    · intro c hc
      rcases List.mem_cons.mp hc with h | h
      · omega
      · exact ih2 c h
    · rcases hL' : (collectIN ep_addr f (xfer_data_packet ep_addr s)).1 with _ | ⟨b, l⟩
      · exact absurd hL' ih4
      · rw [List.dropLast_cons₂]
        intro c hc
        rcases List.mem_cons.mp hc with h | h
        · exact h
        · refine ih3 c ?_
          rw [hL']
          exact h
    · simp only [List.length_cons, Function.iterate_succ_apply]
      exact ih5
    · intro k hk
      cases k with
      | zero => simpa using hlast
      | succ j =>
        rw [Function.iterate_succ_apply]
        exact ih6 j (by simp at hk; omega)
    · exact ih7

lemma xfer_arm_ctl (ep_addr : Nat) (buf : List Nat) (tb : Nat) (s : DcdState) :
    (xfer_arm ep_addr buf tb s).xfer_status (tu_edpt_number ep_addr)
        (tu_edpt_dir ep_addr)
      = { s.xfer_status (tu_edpt_number ep_addr) (tu_edpt_dir ep_addr) with
          buffer := buf, total_len := tb % 65536, queued_len := 0,
          is_last_packet := false } := by
  simp [xfer_arm, setCtl, updCtl_same]

/-- C1: for an IN endpoint whose context has `max_size > 0`, starting a
transfer of `total` bytes (a uint16, hence `total < 2^16`): `dcd_edpt_xfer`
performs the context reset (`xfer_arm`) followed by the first packetizer
call, and the sequence of chunk sizes collected from the armed
`EP_TX_LEN` register over repeated `xfer_data_packet` calls (`collectIN`,
with ample fuel `total + 1`) sums exactly to `total`; every chunk is at
most `max_size` and every chunk except possibly the last equals
`max_size`; at least one chunk is produced; `is_last_packet` is false
after every proper prefix of the calls and true after the final one —
i.e. it becomes true exactly once, on the final chunk; and a zero-length
transfer produces exactly the single zero-length chunk `[0]` (with, by
the previous conjunct, `is_last_packet` set on that first call). -/
theorem c1_in_packetizer_chunks (rh ep_addr total : Nat) (buffer : List Nat)
    (s : DcdState)
    (hdir : tu_edpt_dir ep_addr = .TUSB_DIR_IN)
    (htot : total < 65536)
    (hm : 0 < (s.xfer_status (tu_edpt_number ep_addr) .TUSB_DIR_IN).max_size) :
    dcd_edpt_xfer rh ep_addr buffer total s
      = some (xfer_data_packet ep_addr (xfer_arm ep_addr buffer total s), true) ∧
    (collectIN ep_addr (total + 1) (xfer_arm ep_addr buffer total s)).1.sum
      = total ∧
    (∀ c ∈ (collectIN ep_addr (total + 1) (xfer_arm ep_addr buffer total s)).1,
      c ≤ (s.xfer_status (tu_edpt_number ep_addr) .TUSB_DIR_IN).max_size) ∧
    (∀ c ∈ (collectIN ep_addr (total + 1)
        (xfer_arm ep_addr buffer total s)).1.dropLast,
      c = (s.xfer_status (tu_edpt_number ep_addr) .TUSB_DIR_IN).max_size) ∧
    (collectIN ep_addr (total + 1) (xfer_arm ep_addr buffer total s)).1 ≠ [] ∧
    (∀ k < (collectIN ep_addr (total + 1)
        (xfer_arm ep_addr buffer total s)).1.length,
      (((fun t => xfer_data_packet ep_addr t)^[k]
          (xfer_arm ep_addr buffer total s)).xfer_status
          (tu_edpt_number ep_addr) .TUSB_DIR_IN).is_last_packet = false) ∧
    (((fun t => xfer_data_packet ep_addr t)^[(collectIN ep_addr (total + 1)
          (xfer_arm ep_addr buffer total s)).1.length]
        (xfer_arm ep_addr buffer total s)).xfer_status
        (tu_edpt_number ep_addr) .TUSB_DIR_IN).is_last_packet = true ∧
    (total = 0 →
      (collectIN ep_addr (total + 1) (xfer_arm ep_addr buffer total s)).1 = [0]) := by
  have harm := xfer_arm_ctl ep_addr buffer total s
  rw [hdir] at harm
  have hmod : total % 65536 = total := Nat.mod_eq_of_lt htot
  obtain ⟨h1, h2, h3, h4, h5, h6, h7, h8⟩ :=
    collectIN_spec ep_addr hdir total (total + 1)
      (xfer_arm ep_addr buffer total s)
      (by rw [harm])
      (by rw [harm]; exact Nat.zero_le _)
      (by rw [harm]; exact Nat.mod_lt _ (by norm_num))
      (by rw [harm]; exact hm)
      (by rw [harm]; simp [hmod])
      (by omega)
  rw [harm] at h1 h2 h3 h8
  simp only [hmod] at h1 h8
  refine ⟨rfl, by simpa using h1, ?_, ?_, h4, h6, ?_, ?_⟩
  · intro c hc
    simpa using h2 c hc
  · intro c hc
    simpa using h3 c hc
  · rw [← h5]
    exact h7
  · intro h0
    subst h0
    exact h8 (Nat.zero_le _)

/-- A concrete IN context on endpoint 1 with `max_size = 2`, used as the
C1 witness state (chunk sequence [2, 2, 1] for a 5-byte transfer). -/
def c1_state : DcdState :=
  setCtl zeroState 1 .TUSB_DIR_IN { zero_xfer_ctl with max_size := 2 }

/-- Witness for C1: a 5-byte transfer on endpoint 1 IN with 2-byte
packets. -/
theorem c1_in_packetizer_chunks_witness :
    dcd_edpt_xfer 0 129 [1, 2, 3, 4, 5] 5 c1_state
      = some (xfer_data_packet 129 (xfer_arm 129 [1, 2, 3, 4, 5] 5 c1_state), true) ∧
    (collectIN 129 (5 + 1) (xfer_arm 129 [1, 2, 3, 4, 5] 5 c1_state)).1.sum = 5 ∧
    (∀ c ∈ (collectIN 129 (5 + 1) (xfer_arm 129 [1, 2, 3, 4, 5] 5 c1_state)).1,
      c ≤ (c1_state.xfer_status (tu_edpt_number 129) .TUSB_DIR_IN).max_size) ∧
    (∀ c ∈ (collectIN 129 (5 + 1)
        (xfer_arm 129 [1, 2, 3, 4, 5] 5 c1_state)).1.dropLast,
      c = (c1_state.xfer_status (tu_edpt_number 129) .TUSB_DIR_IN).max_size) ∧
    (collectIN 129 (5 + 1) (xfer_arm 129 [1, 2, 3, 4, 5] 5 c1_state)).1 ≠ [] ∧
    (∀ k < (collectIN 129 (5 + 1)
        (xfer_arm 129 [1, 2, 3, 4, 5] 5 c1_state)).1.length,
      (((fun t => xfer_data_packet 129 t)^[k]
          (xfer_arm 129 [1, 2, 3, 4, 5] 5 c1_state)).xfer_status
          (tu_edpt_number 129) .TUSB_DIR_IN).is_last_packet = false) ∧
    (((fun t => xfer_data_packet 129 t)^[(collectIN 129 (5 + 1)
          (xfer_arm 129 [1, 2, 3, 4, 5] 5 c1_state)).1.length]
        (xfer_arm 129 [1, 2, 3, 4, 5] 5 c1_state)).xfer_status
        (tu_edpt_number 129) .TUSB_DIR_IN).is_last_packet = true ∧
    (5 = 0 →
      (collectIN 129 (5 + 1) (xfer_arm 129 [1, 2, 3, 4, 5] 5 c1_state)).1 = [0]) :=
  c1_in_packetizer_chunks 0 129 5 [1, 2, 3, 4, 5] c1_state (by decide) (by decide)
    (by decide)
